import Mathlib

/-!
# Verification of the WebTransport-over-HTTP/3 session core

A shallow embedding of `src/quic/core/http/web_transport_http3.cc` together
with theorems settling the specification claims about it.  Machine integers
are modelled as `Nat` (all quantities involved are non-negative and no
overflow is reachable on the paths embedded here); calls into the platform
(capsule writes, stream resets, visitor callbacks, datagram registration)
are modelled as emitted events.
-/

set_option maxRecDepth 10000

namespace WT3

/-! ## Error-code mapping (`web_transport_http3.cc`, lines 483-518) -/

def kWebTransportMappedErrorCodeFirst : Nat := 0x52e4a40fa8db

def kWebTransportMappedErrorCodeLast : Nat := 0x52e4a40fa9e2

def kDefaultWebTransportError : Nat := 0

/-- Embedding of `Http3ErrorToWebTransport` (lines 489-505).  The GREASE
test `(http3_error_code - 0x21) % 0x1f` is evaluated only after the range
check, where `http3_error_code ≥ kWebTransportMappedErrorCodeFirst > 0x21`,
so `Nat` subtraction agrees with the `uint64_t` subtraction of the source. -/
def Http3ErrorToWebTransport (http3_error_code : Nat) : Option Nat :=
  if http3_error_code < kWebTransportMappedErrorCodeFirst ∨
      http3_error_code > kWebTransportMappedErrorCodeLast then
    none
  else if (http3_error_code - 0x21) % 0x1f = 0 then
    none
  else
    let shifted := http3_error_code - kWebTransportMappedErrorCodeFirst
    some (shifted - shifted / 0x1f)

/-- Embedding of `Http3ErrorToWebTransportOrDefault` (lines 507-512). -/
def Http3ErrorToWebTransportOrDefault (http3_error_code : Nat) : Nat :=
  match Http3ErrorToWebTransport http3_error_code with
  | some result => result
  | none => kDefaultWebTransportError

/-- Embedding of `WebTransportErrorToHttp3` (lines 514-518). -/
def WebTransportErrorToHttp3 (webtransport_error_code : Nat) : Nat :=
  kWebTransportMappedErrorCodeFirst + webtransport_error_code +
    webtransport_error_code / 0x1e

/-! ### Auxiliary facts about the mapping -/

/-- Both round trips of the mapping, stated over the bounded offset range so
that they are decidable. -/
lemma codec_roundtrip_bounded :
    (∀ e < 256, Http3ErrorToWebTransport (WebTransportErrorToHttp3 e) = some e) ∧
    (∀ d < 264,
      Option.all (fun e => WebTransportErrorToHttp3 e == kWebTransportMappedErrorCodeFirst + d)
        (Http3ErrorToWebTransport (kWebTransportMappedErrorCodeFirst + d)) = true) := by
  constructor
  · decide
  · decide

lemma accepted_in_range {h e : Nat} (hacc : Http3ErrorToWebTransport h = some e) :
    kWebTransportMappedErrorCodeFirst ≤ h ∧ h ≤ kWebTransportMappedErrorCodeLast := by
  unfold Http3ErrorToWebTransport at hacc
  by_cases hr : h < kWebTransportMappedErrorCodeFirst ∨ h > kWebTransportMappedErrorCodeLast
  · simp [hr] at hacc
  · push_neg at hr
    exact ⟨hr.1, hr.2⟩

/-- Claim C3: the error-code mapping is a bijection between its domains: for
every WebTransport stream error `e` in `0..=255`,
`Http3ErrorToWebTransport (WebTransportErrorToHttp3 e) = some e`, and for
every HTTP/3 code `h` accepted by `Http3ErrorToWebTransport`, applying
`WebTransportErrorToHttp3` to the accepted value yields `h` again. -/
theorem C3_error_code_mapping_bijective :
    (∀ e : Nat, e ≤ 255 →
      Http3ErrorToWebTransport (WebTransportErrorToHttp3 e) = some e) ∧
    (∀ h e : Nat, Http3ErrorToWebTransport h = some e →
      WebTransportErrorToHttp3 e = h) := by
  constructor
  · intro e he
    exact codec_roundtrip_bounded.1 e (by omega)
  · intro h e hacc
    obtain ⟨h1, h2⟩ := accepted_in_range hacc
    have hd : h - kWebTransportMappedErrorCodeFirst < 264 := by
      unfold kWebTransportMappedErrorCodeFirst at h1
      unfold kWebTransportMappedErrorCodeLast at h2
      unfold kWebTransportMappedErrorCodeFirst
      omega
    have hall := codec_roundtrip_bounded.2 (h - kWebTransportMappedErrorCodeFirst) hd
    have hh : kWebTransportMappedErrorCodeFirst + (h - kWebTransportMappedErrorCodeFirst) = h := by
      omega
    rw [hh, hacc] at hall
    simpa [hh] using hall

/-- Witness for C3 at concrete inputs: error `7` round-trips, and the code
`0x52e4a40fa8db` (which decodes to `0`) is recovered by the encoder. -/
theorem C3_error_code_mapping_bijective_witness :
    Http3ErrorToWebTransport (WebTransportErrorToHttp3 7) = some 7 ∧
    WebTransportErrorToHttp3 0 = 0x52e4a40fa8db :=
  ⟨C3_error_code_mapping_bijective.1 7 (by decide),
   C3_error_code_mapping_bijective.2 0x52e4a40fa8db 0 (by decide)⟩

/-- Claim C4: `Http3ErrorToWebTransport h` returns empty exactly when
`h < 0x52e4a40fa8db`, or `h > 0x52e4a40fa9e2`, or `(h − 0x21) % 0x1f = 0`
(the GREASE codepoints); `Http3ErrorToWebTransportOrDefault h` returns `0`
in exactly these rejection cases and otherwise equals the accepted result. -/
theorem C4_rejection_characterisation :
    ∀ h : Nat,
      (Http3ErrorToWebTransport h = none ↔
        h < kWebTransportMappedErrorCodeFirst ∨ h > kWebTransportMappedErrorCodeLast ∨
          (h - 0x21) % 0x1f = 0) ∧
      (Http3ErrorToWebTransport h = none → Http3ErrorToWebTransportOrDefault h = 0) ∧
      (∀ e, Http3ErrorToWebTransport h = some e → Http3ErrorToWebTransportOrDefault h = e) := by
  intro h
  refine ⟨?_, ?_, ?_⟩
  · unfold Http3ErrorToWebTransport
    split_ifs with h1 h2
    · exact iff_of_true rfl (by tauto)
    · exact iff_of_true rfl (by tauto)
    · push_neg at h1
      refine iff_of_false (by simp) ?_
      intro hcontra
      rcases hcontra with hc | hc | hc
      · omega
      · omega
      · exact h2 hc
  · intro hnone
    unfold Http3ErrorToWebTransportOrDefault kDefaultWebTransportError
    rw [hnone]
  · intro e hsome
    unfold Http3ErrorToWebTransportOrDefault
    rw [hsome]

/-- Witness for C4 at concrete inputs: `0` is rejected so the default
variant yields `0`; `0x52e4a40fa8db` is accepted with value `0`. -/
theorem C4_rejection_characterisation_witness :
    Http3ErrorToWebTransportOrDefault 0 = 0 ∧
    Http3ErrorToWebTransportOrDefault 0x52e4a40fa8db = 0 :=
  ⟨(C4_rejection_characterisation 0).2.1 (by decide),
   (C4_rejection_characterisation 0x52e4a40fa8db).2.2 0 (by decide)⟩

/-- Counterexample to claim C5: `Http3ErrorToWebTransport 0x52e4a40fa8fc`
does not return empty; it returns `some 32`, because
`0x52e4a40fa8fc − 0x21 = 0x52e4a40fa8db` leaves remainder `3`, not `0`,
modulo `0x1f`, so the code is not a GREASE codepoint. -/
theorem C5_counterexample_not_grease :
    Http3ErrorToWebTransport 0x52e4a40fa8fc = some 32 ∧
    (0x52e4a40fa8fc - 0x21) % 0x1f = 3 := by
  constructor
  · decide
  · decide

/-- Claim C5 as amended: `Http3ErrorToWebTransport 0x52e4a40fa8fc` (the code
equal to `FIRST + 0x21`) returns `some 32`; that code is not a GREASE
codepoint, and the in-range GREASE codepoints — which all return empty —
are `FIRST + 30 + 31·k` for `k = 0..7`. -/
theorem C5_amended_grease_codepoints :
    Http3ErrorToWebTransport 0x52e4a40fa8fc = some 32 ∧
    (∀ k < 8, Http3ErrorToWebTransport (0x52e4a40fa8db + 30 + 31 * k) = none) := by
  constructor
  · decide
  · decide

/-- Witness for the amended C5 at `k = 0`: the first in-range GREASE
codepoint is rejected. -/
theorem C5_amended_grease_codepoints_witness :
    Http3ErrorToWebTransport (0x52e4a40fa8db + 30 + 31 * 0) = none :=
  C5_amended_grease_codepoints.2 0 (by decide)

/-! ## Session state and platform events

The session object of `web_transport_http3.cc`.  Calls into the platform
and into the visitor are recorded as events, in the order the source makes
them. -/

/-- The two endpoint roles (`Perspective` in the QUIC platform). -/
inductive Perspective where
  | IS_CLIENT
  | IS_SERVER
deriving DecidableEq, Repr

/-- The distinguished reset codes the source passes to
`session_->ResetStream`. -/
inductive QuicRstStreamErrorCode where
  | QUIC_STREAM_WEBTRANSPORT_SESSION_GONE
  | QUIC_STREAM_CANCELLED
  | QUIC_BAD_APPLICATION_PAYLOAD
deriving DecidableEq, Repr

/-- The datagram format type; the source only distinguishes
`WEBTRANSPORT` from everything else. -/
inductive DatagramFormatType where
  | WEBTRANSPORT
  | OTHER
deriving DecidableEq, Repr

/-- Observable calls the session makes into the platform and the visitor. -/
inductive Event where
  | registerRegistrationVisitor (attemptContexts : Bool)
  | unregisterRegistrationVisitor
  | registerContext (contextId : Option Nat)
  | unregisterContext (contextId : Option Nat)
  | resetStream (streamId : Nat) (error : QuicRstStreamErrorCode)
  | writeCapsuleCloseWithFin (errorCode : Nat) (errorMessage : String)
  | writeEmptyFin
  | sessionClosed (errorCode : Nat) (errorMessage : String)
  | quicBug (tag : String)
deriving DecidableEq, Repr

/-- The mutable state of a `WebTransportHttp3` object, restricted to the
fields the claims are about. -/
structure SessionState where
  role : Perspective
  connectStreamId : Nat
  closeSent : Bool
  closeReceived : Bool
  closeNotified : Bool
  errorCode : Nat
  errorMessage : String
  streams : List Nat
  contextIsKnown : Bool
  contextId : Option Nat
  contextCurrentlyRegistered : Bool
deriving DecidableEq, Repr

/-- Modelled from the spec: the default member initializers of
`WebTransportHttp3` live in `web_transport_http3.h`, which is not among the
sources.  Per §3 of the spec, `close_sent`, `close_received`,
`close_notified`, `context_is_known` and `context_currently_registered` are
all initially false, `error_code` is `0` with an empty `error_message`
(meaningful only after a close), the stream set is empty and `context_id`
is empty. -/
def defaultSessionState (role : Perspective) (connectStreamId : Nat) : SessionState :=
  { role := role
    connectStreamId := connectStreamId
    closeSent := false
    closeReceived := false
    closeNotified := false
    errorCode := 0
    errorMessage := ""
    streams := []
    contextIsKnown := false
    contextId := none
    contextCurrentlyRegistered := false }

/-- Embedding of the `WebTransportHttp3` constructor (lines 43-63).  The
platform call `connect_stream_->GetNextDatagramContextId()` is modelled by
the parameter `nextDatagramContextId`. -/
def WebTransportHttp3Construct (role : Perspective) (connectStreamId : Nat)
    (attemptToUseDatagramContexts : Bool) (nextDatagramContextId : Nat) :
    SessionState × List Event :=
  let s := defaultSessionState role connectStreamId
  let evs := [Event.registerRegistrationVisitor attemptToUseDatagramContexts]
  if role = Perspective.IS_CLIENT then
    let s := { s with
      contextIsKnown := true
      contextCurrentlyRegistered := true
      contextId :=
        if attemptToUseDatagramContexts then some nextDatagramContextId
        else s.contextId }
    (s, evs)
  else
    (s, evs)

/-- Embedding of `MaybeNotifyClose` (lines 354-360). -/
def MaybeNotifyClose (s : SessionState) : SessionState × List Event :=
  if s.closeNotified then
    (s, [])
  else
    ({ s with closeNotified := true }, [Event.sessionClosed s.errorCode s.errorMessage])

/-- Embedding of `CloseSession` (lines 99-125). -/
def CloseSession (error_code : Nat) (error_message : String) (s : SessionState) :
    SessionState × List Event :=
  if s.closeSent then
    (s, [Event.quicBug "WebTransportHttp3 close sent twice"])
  else
    let s := { s with closeSent := true }
    if s.closeReceived then
      (s, [])
    else
      let s := { s with errorCode := error_code, errorMessage := error_message }
      (s, [Event.writeCapsuleCloseWithFin error_code error_message])

/-- Embedding of `OnCloseReceived` (lines 127-146).  Note that the source
fires `QUIC_BUG` on a repeated call but does not return early there. -/
def OnCloseReceived (error_code : Nat) (error_message : String) (s : SessionState) :
    SessionState × List Event :=
  let bugEvents :=
    if s.closeReceived then
      [Event.quicBug "WebTransportHttp3 notified of close received twice"]
    else []
  let s := { s with closeReceived := true }
  if s.closeSent then
    (s, bugEvents)
  else
    let s := { s with errorCode := error_code, errorMessage := error_message }
    let notified := MaybeNotifyClose s
    (notified.1, bugEvents ++ [Event.writeEmptyFin] ++ notified.2)

/-- Embedding of `OnConnectStreamFinReceived` (lines 148-163). -/
def OnConnectStreamFinReceived (s : SessionState) : SessionState × List Event :=
  if s.closeReceived then
    (s, [])
  else
    let s := { s with closeReceived := true }
    if s.closeSent then
      (s, [])
    else
      let notified := MaybeNotifyClose s
      (notified.1, [Event.writeEmptyFin] ++ notified.2)

/-- Embedding of `OnConnectStreamClosing` (lines 82-97), instrumented: each
emitted event is paired with the session state at the moment the source
issues the corresponding platform call.  The source snapshots `streams_`
into a local vector and clears the member before the reset loop, so every
`ResetStream` call observes an empty stream set. -/
def OnConnectStreamClosingTraced (s : SessionState) :
    SessionState × List (Event × SessionState) :=
  let snapshot := s.streams
  let s1 := { s with streams := [] }
  let resetTrace :=
    snapshot.map fun id =>
      (Event.resetStream id QuicRstStreamErrorCode.QUIC_STREAM_WEBTRANSPORT_SESSION_GONE, s1)
  let unreg :=
    if s1.contextCurrentlyRegistered then
      let s2 := { s1 with contextCurrentlyRegistered := false }
      (s2, [(Event.unregisterContext s2.contextId, s2)])
    else
      (s1, [])
  let s2 := unreg.1
  let visitorTrace := (Event.unregisterRegistrationVisitor, s2)
  let notified := MaybeNotifyClose s2
  let notifyTrace := notified.2.map fun e => (e, notified.1)
  (notified.1, resetTrace ++ unreg.2 ++ [visitorTrace] ++ notifyTrace)

/-- Embedding of `OnConnectStreamClosing` (lines 82-97): the traced version
with the instrumentation projected away. -/
def OnConnectStreamClosing (s : SessionState) : SessionState × List Event :=
  let traced := OnConnectStreamClosingTraced s
  (traced.1, traced.2.map Prod.fst)

/-! ## Sequences of close-related operations -/

/-- The close-related operations a caller can interleave on one session. -/
inductive SessionOp where
  | closeSession (errorCode : Nat) (errorMessage : String)
  | onCloseReceived (errorCode : Nat) (errorMessage : String)
  | onConnectStreamFinReceived
  | onConnectStreamClosing
deriving DecidableEq, Repr

/-- Dispatch one operation. -/
def applyOp (s : SessionState) : SessionOp → SessionState × List Event
  | SessionOp.closeSession c m => CloseSession c m s
  | SessionOp.onCloseReceived c m => OnCloseReceived c m s
  | SessionOp.onConnectStreamFinReceived => OnConnectStreamFinReceived s
  | SessionOp.onConnectStreamClosing => OnConnectStreamClosing s

/-- Run a sequence of operations, accumulating the emitted events. -/
def runOps (s : SessionState) : List SessionOp → SessionState × List Event
  | [] => (s, [])
  | op :: rest =>
    let step := applyOp s op
    let tail := runOps step.1 rest
    (tail.1, step.2 ++ tail.2)

/-- Recogniser for visitor `OnSessionClosed` events. -/
def Event.isSessionClosed : Event → Bool
  | Event.sessionClosed _ _ => true
  | _ => false

/-- Recogniser for `CLOSE_WEBTRANSPORT_SESSION` capsule writes. -/
def Event.isWriteCapsule : Event → Bool
  | Event.writeCapsuleCloseWithFin _ _ => true
  | _ => false

/-- Recogniser for bare-FIN body writes. -/
def Event.isWriteEmptyFin : Event → Bool
  | Event.writeEmptyFin => true
  | _ => false

/-! ## Close notification is fired at most once (C1) -/

/-- One operation emits exactly the `OnSessionClosed` events that flip
`close_notified` from false to true. -/
lemma applyOp_closed_count (s : SessionState) (op : SessionOp) :
    ((applyOp s op).2.countP (fun e => Event.isSessionClosed e)) +
        (if s.closeNotified = true then 1 else 0) =
      (if (applyOp s op).1.closeNotified = true then 1 else 0) := by
  cases op with
  | closeSession c m =>
      simp only [applyOp, CloseSession]
      split_ifs <;> simp_all [Event.isSessionClosed]
  | onCloseReceived c m =>
      simp only [applyOp, OnCloseReceived, MaybeNotifyClose]
      split_ifs <;> simp_all [Event.isSessionClosed]
  | onConnectStreamFinReceived =>
      simp only [applyOp, OnConnectStreamFinReceived, MaybeNotifyClose]
      split_ifs <;> simp_all [Event.isSessionClosed]
  | onConnectStreamClosing =>
      simp only [applyOp, OnConnectStreamClosing, OnConnectStreamClosingTraced,
        MaybeNotifyClose]
      split_ifs <;>
        simp_all [Event.isSessionClosed, List.countP_append, List.countP_map,
          Function.comp]

/-- `OnConnectStreamClosing` always leaves `close_notified` set. -/
lemma closing_notifies (s : SessionState) :
    (applyOp s SessionOp.onConnectStreamClosing).1.closeNotified = true := by
  simp only [applyOp, OnConnectStreamClosing, OnConnectStreamClosingTraced,
    MaybeNotifyClose]
  split_ifs <;> simp_all

/-- Sequences of operations emit exactly the `OnSessionClosed` events that
flip `close_notified`. -/
lemma runOps_closed_count (ops : List SessionOp) (s : SessionState) :
    ((runOps s ops).2.countP (fun e => Event.isSessionClosed e)) +
        (if s.closeNotified = true then 1 else 0) =
      (if (runOps s ops).1.closeNotified = true then 1 else 0) := by
  induction ops generalizing s with
  | nil => simp [runOps]
  | cons op rest ih =>
      simp only [runOps, List.countP_append]
      have h1 := applyOp_closed_count s op
      have h2 := ih (applyOp s op).1
      omega

/-- `close_notified`, once set, survives any further operations. -/
lemma runOps_notified_mono (ops : List SessionOp) (s : SessionState)
    (h : s.closeNotified = true) : (runOps s ops).1.closeNotified = true := by
  have hc := runOps_closed_count ops s
  cases hfin : (runOps s ops).1.closeNotified with
  | false =>
      rw [h, hfin] at hc
      simp at hc
  | true => rfl

/-- Splitting a run of operations at a list append. -/
lemma runOps_append (s : SessionState) (l1 l2 : List SessionOp) :
    runOps s (l1 ++ l2) =
      ((runOps (runOps s l1).1 l2).1,
        (runOps s l1).2 ++ (runOps (runOps s l1).1 l2).2) := by
  induction l1 generalizing s with
  | nil => simp [runOps]
  | cons op rest ih => simp [runOps, ih]

/-- The constructed session starts with `close_notified` unset. -/
lemma construct_not_notified (role : Perspective) (csid : Nat)
    (attempt : Bool) (nctx : Nat) :
    (WebTransportHttp3Construct role csid attempt nctx).1.closeNotified = false := by
  cases role <;> simp [WebTransportHttp3Construct, defaultSessionState]

/-- Claim C1: for every finite sequence of calls to `CloseSession`,
`OnCloseReceived`, `OnConnectStreamFinReceived` and `OnConnectStreamClosing`
on one session, the visitor's `OnSessionClosed` callback is invoked at most
once; in any such sequence that includes `OnConnectStreamClosing` it is
invoked exactly once. -/
theorem C1_session_closed_at_most_once
    (role : Perspective) (csid : Nat) (attempt : Bool) (nctx : Nat)
    (ops : List SessionOp) :
    ((runOps (WebTransportHttp3Construct role csid attempt nctx).1 ops).2.countP
        (fun e => Event.isSessionClosed e)) ≤ 1 ∧
    (SessionOp.onConnectStreamClosing ∈ ops →
      ((runOps (WebTransportHttp3Construct role csid attempt nctx).1 ops).2.countP
          (fun e => Event.isSessionClosed e)) = 1) := by
  set s0 := (WebTransportHttp3Construct role csid attempt nctx).1 with hs0
  have hnot : s0.closeNotified = false := construct_not_notified role csid attempt nctx
  have hcount := runOps_closed_count ops s0
  rw [hnot] at hcount
  simp only [Bool.false_eq_true, if_false, Nat.add_zero] at hcount
  constructor
  · rw [hcount]
    split_ifs <;> omega
  · intro hmem
    obtain ⟨l1, l2, rfl⟩ := List.append_of_mem hmem
    have hsplit := runOps_append s0 l1 (SessionOp.onConnectStreamClosing :: l2)
    have hnotified :
        (runOps s0 (l1 ++ SessionOp.onConnectStreamClosing :: l2)).1.closeNotified = true := by
      rw [hsplit]
      simp only [runOps]
      exact runOps_notified_mono l2 _ (closing_notifies (runOps s0 l1).1)
    rw [hnotified] at hcount
    simpa using hcount

/-- Witness for C1: a single `OnConnectStreamClosing` on a freshly
constructed client session notifies exactly once. -/
theorem C1_session_closed_at_most_once_witness :
    ((runOps (WebTransportHttp3Construct Perspective.IS_CLIENT 0 false 0).1
        [SessionOp.onConnectStreamClosing]).2.countP
        (fun e => Event.isSessionClosed e)) = 1 :=
  (C1_session_closed_at_most_once Perspective.IS_CLIENT 0 false 0
      [SessionOp.onConnectStreamClosing]).2 (by decide)

/-! ## Close races: the first close event wins (C2) -/

/-- Recogniser for the three close-related operations of claim C2
(everything except `OnConnectStreamClosing`). -/
def SessionOp.isCloseOp : SessionOp → Bool
  | SessionOp.onConnectStreamClosing => false
  | _ => true

/-- Recogniser for `CloseSession` operations. -/
def SessionOp.isCloseSession : SessionOp → Bool
  | SessionOp.closeSession _ _ => true
  | _ => false

/-- Recogniser for `OnCloseReceived` operations. -/
def SessionOp.isOnCloseReceived : SessionOp → Bool
  | SessionOp.onCloseReceived _ _ => true
  | _ => false

/-- Recogniser for `OnConnectStreamFinReceived` operations. -/
def SessionOp.isFin : SessionOp → Bool
  | SessionOp.onConnectStreamFinReceived => true
  | _ => false

/-- Every `OnCloseReceived` in the list has a `CloseSession` before it. -/
def ocrOnlyAfterCS : List SessionOp → Bool
  | [] => true
  | op :: rest =>
    if SessionOp.isCloseSession op then true
    else !SessionOp.isOnCloseReceived op && ocrOnlyAfterCS rest

/-- No `OnCloseReceived` is preceded by a FIN event unless a `CloseSession`
comes even earlier. -/
def noOcrAfterBareFin : List SessionOp → Bool
  | [] => true
  | op :: rest =>
    if SessionOp.isCloseSession op then true
    else if SessionOp.isFin op then ocrOnlyAfterCS rest
    else noOcrAfterBareFin rest

/-- The error code and message the first close event of the sequence
carries (`0` and the empty message for a bare FIN or an empty sequence). -/
def expectedError : List SessionOp → Nat × String
  | SessionOp.closeSession c m :: _ => (c, m)
  | SessionOp.onCloseReceived c m :: _ => (c, m)
  | _ => (0, "")

lemma ocrOnlyAfterCS_of_no_ocr (l : List SessionOp)
    (h : l.countP (fun op => SessionOp.isOnCloseReceived op) = 0) :
    ocrOnlyAfterCS l = true := by
  induction l with
  | nil => rfl
  | cons op rest ih =>
      rw [List.countP_cons] at h
      unfold ocrOnlyAfterCS
      split_ifs with hcs
      · rfl
      · have hop : SessionOp.isOnCloseReceived op = false := by
          by_contra hc
          simp only [Bool.not_eq_false] at hc
          simp [hc] at h
        have hrest : rest.countP (fun op => SessionOp.isOnCloseReceived op) = 0 := by
          omega
        simp [hop, ih hrest]

/-- Once `close_sent` is set and no further `CloseSession` occurs, the
remaining close operations change neither the recorded error nor write any
capsule or FIN. -/
lemma runOps_after_sent (rest : List SessionOp) : ∀ s : SessionState,
    s.closeSent = true →
    (∀ op ∈ rest, SessionOp.isCloseOp op = true) →
    rest.countP (fun op => SessionOp.isCloseSession op) = 0 →
    (runOps s rest).1.errorCode = s.errorCode ∧
    (runOps s rest).1.errorMessage = s.errorMessage ∧
    (runOps s rest).2.countP (fun e => Event.isWriteCapsule e) = 0 ∧
    (runOps s rest).2.countP (fun e => Event.isWriteEmptyFin e) = 0 := by
  induction rest with
  | nil =>
      intro s _ _ _
      simp [runOps]
  | cons op rest ih =>
      intro s hsent hkinds hcs
      have hkop := hkinds op (List.mem_cons_self op rest)
      have hkrest : ∀ o ∈ rest, SessionOp.isCloseOp o = true :=
        fun o ho => hkinds o (List.mem_cons_of_mem op ho)
      rw [List.countP_cons] at hcs
      cases op with
      | closeSession c m =>
          simp [SessionOp.isCloseSession] at hcs
      | onCloseReceived c m =>
          have hcs' : rest.countP (fun op => SessionOp.isCloseSession op) = 0 := by
            rw [show SessionOp.isCloseSession (SessionOp.onCloseReceived c m) = false from rfl]
              at hcs
            simpa using hcs
          have hstep := ih { s with closeReceived := true } (by simp [hsent]) hkrest hcs'
          simp only [runOps, applyOp, OnCloseReceived, hsent, if_true]
          by_cases hrecv : s.closeReceived = true <;>
            simp_all [Event.isWriteCapsule, Event.isWriteEmptyFin, List.countP_append]
      | onConnectStreamFinReceived =>
          have hcs' : rest.countP (fun op => SessionOp.isCloseSession op) = 0 := by
            rw [show SessionOp.isCloseSession SessionOp.onConnectStreamFinReceived = false
              from rfl] at hcs
            simpa using hcs
          by_cases hrecv : s.closeReceived = true
          · have hstep := ih s hsent hkrest hcs'
            simp only [runOps, applyOp, OnConnectStreamFinReceived, hrecv, if_true]
            simpa using hstep
          · have hstep := ih { s with closeReceived := true } (by simp [hsent]) hkrest hcs'
            simp only [runOps, applyOp, OnConnectStreamFinReceived]
            simp_all [Event.isWriteCapsule, Event.isWriteEmptyFin]
      | onConnectStreamClosing =>
          simp [SessionOp.isCloseOp] at hkop

/-- Once `close_received` and `close_notified` are set, further close
operations keep the recorded error and write nothing — provided any
`OnCloseReceived` among them comes after a `CloseSession` (or `close_sent`
is already set). -/
lemma runOps_after_received (rest : List SessionOp) : ∀ s : SessionState,
    s.closeReceived = true →
    s.closeNotified = true →
    (∀ op ∈ rest, SessionOp.isCloseOp op = true) →
    rest.countP (fun op => SessionOp.isCloseSession op) ≤ 1 →
    (s.closeSent = true ∨ ocrOnlyAfterCS rest = true) →
    (runOps s rest).1.errorCode = s.errorCode ∧
    (runOps s rest).1.errorMessage = s.errorMessage ∧
    (runOps s rest).2.countP (fun e => Event.isWriteCapsule e) = 0 ∧
    (runOps s rest).2.countP (fun e => Event.isWriteEmptyFin e) = 0 := by
  induction rest with
  | nil =>
      intro s _ _ _ _ _
      simp [runOps]
  | cons op rest ih =>
      intro s hrecv hnot hkinds hcs hord
      have hkop := hkinds op (List.mem_cons_self op rest)
      have hkrest : ∀ o ∈ rest, SessionOp.isCloseOp o = true :=
        fun o ho => hkinds o (List.mem_cons_of_mem op ho)
      rw [List.countP_cons] at hcs
      cases op with
      | closeSession c m =>
          have hcs' : rest.countP (fun op => SessionOp.isCloseSession op) ≤ 1 := by
            rw [show SessionOp.isCloseSession (SessionOp.closeSession c m) = true from rfl,
              if_pos rfl] at hcs
            omega
          by_cases hsent : s.closeSent = true
          · have hstep := ih s hrecv hnot hkrest hcs' (Or.inl hsent)
            simp only [runOps, applyOp, CloseSession, hsent, if_true]
            simpa [Event.isWriteCapsule, Event.isWriteEmptyFin] using hstep
          · have hstep := ih { s with closeSent := true } hrecv hnot hkrest hcs'
              (Or.inl rfl)
            simp only [runOps, applyOp, CloseSession]
            simp_all [Event.isWriteCapsule, Event.isWriteEmptyFin]
      | onCloseReceived c m =>
          have hsent : s.closeSent = true := by
            rcases hord with hsent | hord
            · exact hsent
            · exfalso
              unfold ocrOnlyAfterCS at hord
              simp [SessionOp.isCloseSession, SessionOp.isOnCloseReceived] at hord
          have hcs' : rest.countP (fun op => SessionOp.isCloseSession op) ≤ 1 := by
            rw [show SessionOp.isCloseSession (SessionOp.onCloseReceived c m) = false from rfl]
              at hcs
            simpa using hcs
          have hstep := ih { s with closeReceived := true } (by simp) hnot hkrest hcs'
            (Or.inl (by simp [hsent]))
          simp only [runOps, applyOp, OnCloseReceived, hsent, if_true]
          simp_all [Event.isWriteCapsule, Event.isWriteEmptyFin, List.countP_append,
            Event.isSessionClosed]
      | onConnectStreamFinReceived =>
          have hcs' : rest.countP (fun op => SessionOp.isCloseSession op) ≤ 1 := by
            rw [show SessionOp.isCloseSession SessionOp.onConnectStreamFinReceived = false
              from rfl] at hcs
            simpa using hcs
          have hord' : s.closeSent = true ∨ ocrOnlyAfterCS rest = true := by
            rcases hord with hsent | hord
            · exact Or.inl hsent
            · refine Or.inr ?_
              unfold ocrOnlyAfterCS at hord
              simpa [SessionOp.isCloseSession, SessionOp.isOnCloseReceived] using hord
          have hstep := ih s hrecv hnot hkrest hcs' hord'
          simp only [runOps, applyOp, OnConnectStreamFinReceived, hrecv, if_true]
          simpa using hstep
      | onConnectStreamClosing =>
          simp [SessionOp.isCloseOp] at hkop

/-- The constructed session starts with all close-related fields at their
defaults. -/
lemma construct_close_defaults (role : Perspective) (csid : Nat)
    (attempt : Bool) (nctx : Nat) :
    (WebTransportHttp3Construct role csid attempt nctx).1.closeSent = false ∧
    (WebTransportHttp3Construct role csid attempt nctx).1.closeReceived = false ∧
    (WebTransportHttp3Construct role csid attempt nctx).1.errorCode = 0 ∧
    (WebTransportHttp3Construct role csid attempt nctx).1.errorMessage = "" := by
  cases role <;> simp [WebTransportHttp3Construct, defaultSessionState]

/-- Counterexample to claim C2 as stated: in the interleaving
`[OnConnectStreamFinReceived, OnCloseReceived 5 "x"]` the first close event
is the bare FIN, so the claim requires the recorded error to stay
`(0, "")`; the code instead records the peer's `(5, "x")` and also writes a
second FIN. -/
theorem C2_counterexample_close_received_after_fin :
    ((runOps (WebTransportHttp3Construct Perspective.IS_CLIENT 0 false 0).1
        [SessionOp.onConnectStreamFinReceived, SessionOp.onCloseReceived 5 "x"]).1.errorCode
      = 5) ∧
    ((runOps (WebTransportHttp3Construct Perspective.IS_CLIENT 0 false 0).1
        [SessionOp.onConnectStreamFinReceived, SessionOp.onCloseReceived 5 "x"]).2.countP
        (fun e => Event.isWriteEmptyFin e) = 2) := by
  constructor
  · decide
  · decide

/-- Auxiliary form of claim C2, stated over any session state whose
close-related fields are still at their defaults. -/
lemma runOps_first_close_wins (ops : List SessionOp) (s0 : SessionState)
    (hsent0 : s0.closeSent = false) (hrecv0 : s0.closeReceived = false)
    (hnot0 : s0.closeNotified = false) (hec0 : s0.errorCode = 0)
    (hem0 : s0.errorMessage = "")
    (hkinds : ∀ op ∈ ops, SessionOp.isCloseOp op = true)
    (hcs : ops.countP (fun op => SessionOp.isCloseSession op) ≤ 1)
    (hocr : ops.countP (fun op => SessionOp.isOnCloseReceived op) ≤ 1)
    (horder : noOcrAfterBareFin ops = true) :
    ((runOps s0 ops).1.errorCode, (runOps s0 ops).1.errorMessage) = expectedError ops ∧
    (runOps s0 ops).2.countP (fun e => Event.isWriteCapsule e) =
      (if ops.head?.elim false (fun op => SessionOp.isCloseSession op) then 1 else 0) ∧
    (runOps s0 ops).2.countP (fun e => Event.isWriteEmptyFin e) =
      (if ops.head?.elim false
          (fun op => SessionOp.isOnCloseReceived op || SessionOp.isFin op)
        then 1 else 0) := by
  obtain ⟨role0, csid0, sent0, recv0, not0, ec0, em0, streams0, known0, ctxid0, reg0⟩ := s0
  simp only at hsent0 hrecv0 hnot0 hec0 hem0
  subst hsent0
  subst hrecv0
  subst hnot0
  subst hec0
  subst hem0
  cases ops with
  | nil => simp [runOps, expectedError]
  | cons op rest =>
      have hkrest : ∀ o ∈ rest, SessionOp.isCloseOp o = true :=
        fun o ho => hkinds o (List.mem_cons_of_mem op ho)
      have hkop := hkinds op (List.mem_cons_self op rest)
      rw [List.countP_cons] at hcs hocr
      cases op with
      | closeSession c m =>
          have hcs' : rest.countP (fun op => SessionOp.isCloseSession op) = 0 := by
            rw [show SessionOp.isCloseSession (SessionOp.closeSession c m) = true from rfl,
              if_pos rfl] at hcs
            omega
          have hstep := runOps_after_sent rest
            ⟨role0, csid0, true, false, false, c, m, streams0, known0, ctxid0, reg0⟩
            rfl hkrest hcs'
          simp only at hstep
          simp [runOps, applyOp, CloseSession, Event.isWriteCapsule, Event.isWriteEmptyFin,
            expectedError, SessionOp.isCloseSession, SessionOp.isOnCloseReceived,
            SessionOp.isFin, List.countP_cons, List.countP_append, hstep.1, hstep.2.1,
            hstep.2.2.1, hstep.2.2.2]
          refine ⟨fun a ha => ?_, fun a ha => ?_⟩
          · have hz := List.countP_eq_zero.mp hstep.2.2.1 a ha
            simpa [Event.isWriteCapsule] using hz
          · have hz := List.countP_eq_zero.mp hstep.2.2.2 a ha
            simpa [Event.isWriteEmptyFin] using hz
      | onCloseReceived c m =>
          have hocr' : rest.countP (fun op => SessionOp.isOnCloseReceived op) = 0 := by
            rw [show SessionOp.isOnCloseReceived (SessionOp.onCloseReceived c m) = true
              from rfl, if_pos rfl] at hocr
            omega
          have hcs' : rest.countP (fun op => SessionOp.isCloseSession op) ≤ 1 := by
            omega
          have hstep := runOps_after_received rest
            ⟨role0, csid0, false, true, true, c, m, streams0, known0, ctxid0, reg0⟩
            rfl rfl hkrest hcs' (Or.inr (ocrOnlyAfterCS_of_no_ocr rest hocr'))
          simp only at hstep
          simp [runOps, applyOp, OnCloseReceived, MaybeNotifyClose, Event.isWriteCapsule,
            Event.isWriteEmptyFin, Event.isSessionClosed, expectedError,
            SessionOp.isCloseSession, SessionOp.isOnCloseReceived, SessionOp.isFin,
            List.countP_cons, List.countP_append, hstep.1, hstep.2.1, hstep.2.2.1,
            hstep.2.2.2]
          refine ⟨fun a ha => ?_, fun a ha => ?_⟩
          · have hz := List.countP_eq_zero.mp hstep.2.2.1 a ha
            simpa [Event.isWriteCapsule] using hz
          · have hz := List.countP_eq_zero.mp hstep.2.2.2 a ha
            simpa [Event.isWriteEmptyFin] using hz
      | onConnectStreamFinReceived =>
          have hord' : ocrOnlyAfterCS rest = true := by
            unfold noOcrAfterBareFin at horder
            simpa [SessionOp.isCloseSession, SessionOp.isFin] using horder
          have hcs' : rest.countP (fun op => SessionOp.isCloseSession op) ≤ 1 := by
            rw [show SessionOp.isCloseSession SessionOp.onConnectStreamFinReceived = false
              from rfl] at hcs
            simpa using hcs
          have hstep := runOps_after_received rest
            ⟨role0, csid0, false, true, true, 0, "", streams0, known0, ctxid0, reg0⟩
            rfl rfl hkrest hcs' (Or.inr hord')
          simp only at hstep
          simp [runOps, applyOp, OnConnectStreamFinReceived, MaybeNotifyClose,
            Event.isWriteCapsule, Event.isWriteEmptyFin, Event.isSessionClosed,
            expectedError, SessionOp.isCloseSession, SessionOp.isOnCloseReceived,
            SessionOp.isFin, List.countP_cons, List.countP_append, hstep.1, hstep.2.1,
            hstep.2.2.1, hstep.2.2.2]
          refine ⟨fun a ha => ?_, fun a ha => ?_⟩
          · have hz := List.countP_eq_zero.mp hstep.2.2.1 a ha
            simpa [Event.isWriteCapsule] using hz
          · have hz := List.countP_eq_zero.mp hstep.2.2.2 a ha
            simpa [Event.isWriteEmptyFin] using hz
      | onConnectStreamClosing =>
          simp [SessionOp.isCloseOp] at hkop

/-- Claim C2 as amended: for every interleaving of at most one
`CloseSession(code, message)`, at most one `OnCloseReceived(code', message')`
and any number of `OnConnectStreamFinReceived` events — provided
`OnCloseReceived` is not preceded by a FIN event unless a `CloseSession`
comes even earlier — the recorded error code and message are those of
whichever close event occurred first (`CloseSession` first: the caller's
values; `OnCloseReceived` first: the peer's values; bare FIN first: `0` and
the empty message); a close capsule is written exactly when `CloseSession`
is the first event, and exactly one echo FIN is written exactly when
`OnCloseReceived` or a FIN is the first event. -/
theorem C2_first_close_event_wins
    (role : Perspective) (csid : Nat) (attempt : Bool) (nctx : Nat)
    (ops : List SessionOp)
    (hkinds : ∀ op ∈ ops, SessionOp.isCloseOp op = true)
    (hcs : ops.countP (fun op => SessionOp.isCloseSession op) ≤ 1)
    (hocr : ops.countP (fun op => SessionOp.isOnCloseReceived op) ≤ 1)
    (horder : noOcrAfterBareFin ops = true) :
    ((runOps (WebTransportHttp3Construct role csid attempt nctx).1 ops).1.errorCode,
      (runOps (WebTransportHttp3Construct role csid attempt nctx).1 ops).1.errorMessage) =
        expectedError ops ∧
    (runOps (WebTransportHttp3Construct role csid attempt nctx).1 ops).2.countP
        (fun e => Event.isWriteCapsule e) =
      (if ops.head?.elim false (fun op => SessionOp.isCloseSession op) then 1 else 0) ∧
    (runOps (WebTransportHttp3Construct role csid attempt nctx).1 ops).2.countP
        (fun e => Event.isWriteEmptyFin e) =
      (if ops.head?.elim false
          (fun op => SessionOp.isOnCloseReceived op || SessionOp.isFin op)
        then 1 else 0) := by
  obtain ⟨hsent0, hrecv0, hec0, hem0⟩ := construct_close_defaults role csid attempt nctx
  exact runOps_first_close_wins ops _ hsent0 hrecv0
    (construct_not_notified role csid attempt nctx) hec0 hem0 hkinds hcs hocr horder

/-- Witness for the amended C2: spec scenario S2 — a local
`CloseSession(17, "bye")` races a peer `OnCloseReceived(9, "srv")`; the
local values win. -/
theorem C2_first_close_event_wins_witness :
    ((runOps (WebTransportHttp3Construct Perspective.IS_CLIENT 0 false 0).1
        [SessionOp.closeSession 17 "bye", SessionOp.onCloseReceived 9 "srv"]).1.errorCode,
      (runOps (WebTransportHttp3Construct Perspective.IS_CLIENT 0 false 0).1
        [SessionOp.closeSession 17 "bye", SessionOp.onCloseReceived 9 "srv"]).1.errorMessage) =
      (17, "bye") := by
  have h := (C2_first_close_event_wins Perspective.IS_CLIENT 0 false 0
      [SessionOp.closeSession 17 "bye", SessionOp.onCloseReceived 9 "srv"]
      (by decide) (by decide) (by decide) (by decide)).1
  simpa [expectedError] using h

/-! ## Duplicate `OnCloseReceived` (C9) -/

/-- Counterexample to claim C9: the source fires the bug mechanism on a
second `OnCloseReceived` but does not early-return.  After
`[OnCloseReceived 1 "a", OnCloseReceived 2 "b"]` the recorded error code is
`2` (the second call's value, not the first's) and two FINs have been
written to the connect stream. -/
theorem C9_counterexample_second_close_received :
    ((runOps (WebTransportHttp3Construct Perspective.IS_CLIENT 0 false 0).1
        [SessionOp.onCloseReceived 1 "a", SessionOp.onCloseReceived 2 "b"]).1.errorCode = 2) ∧
    ((runOps (WebTransportHttp3Construct Perspective.IS_CLIENT 0 false 0).1
        [SessionOp.onCloseReceived 1 "a", SessionOp.onCloseReceived 2 "b"]).2.countP
        (fun e => Event.isWriteEmptyFin e) = 2) := by
  constructor
  · decide
  · decide

/-- Claim C9 as amended: calling `OnCloseReceived` with `close_received`
already set fires the internal bug-report mechanism but does not
early-return.  `close_received` stays true; if `close_sent` is true the
call makes no further change and writes nothing else; if `close_sent` is
false it overwrites `error_code`/`error_message` with the new values and
writes an additional empty FIN, but does not invoke `OnSessionClosed`
again when the session was already notified. -/
theorem C9_second_close_received_amended (s : SessionState) (c : Nat) (m : String)
    (hrecv : s.closeReceived = true) :
    Event.quicBug "WebTransportHttp3 notified of close received twice" ∈
      (OnCloseReceived c m s).2 ∧
    (OnCloseReceived c m s).1.closeReceived = true ∧
    (s.closeSent = true →
      (OnCloseReceived c m s).1 = { s with closeReceived := true } ∧
      (OnCloseReceived c m s).2 =
        [Event.quicBug "WebTransportHttp3 notified of close received twice"]) ∧
    (s.closeSent = false →
      (OnCloseReceived c m s).1.errorCode = c ∧
      (OnCloseReceived c m s).1.errorMessage = m ∧
      Event.writeEmptyFin ∈ (OnCloseReceived c m s).2 ∧
      (s.closeNotified = true →
        (OnCloseReceived c m s).2.countP (fun e => Event.isSessionClosed e) = 0)) := by
  cases hsent : s.closeSent <;>
    cases hnotif : s.closeNotified <;>
      simp [OnCloseReceived, MaybeNotifyClose, hrecv, hsent, hnotif,
        Event.isSessionClosed]

/-- Witness for the amended C9 at a concrete closed session state: the bug
fires and (with `close_sent` false) the new error code is recorded. -/
theorem C9_second_close_received_amended_witness :
    Event.quicBug "WebTransportHttp3 notified of close received twice" ∈
      (OnCloseReceived 2 "b"
        (⟨Perspective.IS_CLIENT, 0, false, true, true, 1, "a", [], true, none,
          true⟩ : SessionState)).2 ∧
    (OnCloseReceived 2 "b"
        (⟨Perspective.IS_CLIENT, 0, false, true, true, 1, "a", [], true, none,
          true⟩ : SessionState)).1.errorCode = 2 := by
  have h := C9_second_close_received_amended
    (⟨Perspective.IS_CLIENT, 0, false, true, true, 1, "a", [], true, none,
      true⟩ : SessionState) 2 "b" (by decide)
  exact ⟨h.1, (h.2.2.2 (by decide)).1⟩

/-! ## Connect stream closing resets every associated stream (C7) -/

/-- Recogniser for `ResetStream` platform calls. -/
def Event.isResetStream : Event → Bool
  | Event.resetStream _ _ => true
  | _ => false

/-- Extracts the stream id of a reset issued with
`QUIC_STREAM_WEBTRANSPORT_SESSION_GONE`. -/
def resetGoneId : Event → Option Nat
  | Event.resetStream id QuicRstStreamErrorCode.QUIC_STREAM_WEBTRANSPORT_SESSION_GONE =>
      some id
  | _ => none

/-- Every platform call issued during `OnConnectStreamClosing` observes an
already-empty stream set. -/
lemma closing_trace_states_empty (s : SessionState) :
    ∀ p ∈ (OnConnectStreamClosingTraced s).2, p.2.streams = [] := by
  intro p hp
  by_cases hreg : s.contextCurrentlyRegistered = true
  · by_cases hnotif : s.closeNotified = true
    · simp [OnConnectStreamClosingTraced, MaybeNotifyClose, hreg, hnotif] at hp
      rcases hp with ⟨id, hid, rfl⟩ | rfl | rfl <;> rfl
    · simp [OnConnectStreamClosingTraced, MaybeNotifyClose, hreg, hnotif] at hp
      rcases hp with ⟨id, hid, rfl⟩ | rfl | rfl | rfl <;> rfl
  · by_cases hnotif : s.closeNotified = true
    · simp [OnConnectStreamClosingTraced, MaybeNotifyClose, hreg, hnotif] at hp
      rcases hp with ⟨id, hid, rfl⟩ | rfl | rfl <;> rfl
    · simp [OnConnectStreamClosingTraced, MaybeNotifyClose, hreg, hnotif] at hp
      rcases hp with ⟨id, hid, rfl⟩ | rfl | rfl | rfl <;> rfl

/-- Claim C7: `OnConnectStreamClosing` empties the session's stream set
before issuing any reset, resets exactly the stream ids that were in the
set with `QUIC_STREAM_WEBTRANSPORT_SESSION_GONE`, unregisters the datagram
context when it was registered (clearing the flag), unregisters the
registration visitor, and runs the close-notification step; afterwards the
set of associated-but-unreset stream ids is empty. -/
theorem C7_connect_stream_closing (s : SessionState) :
    (OnConnectStreamClosingTraced s).1.streams = [] ∧
    ((OnConnectStreamClosingTraced s).2.map Prod.fst).filterMap resetGoneId = s.streams ∧
    (∀ p ∈ (OnConnectStreamClosingTraced s).2,
      Event.isResetStream p.1 = true → p.2.streams = []) ∧
    (OnConnectStreamClosingTraced s).1.contextCurrentlyRegistered = false ∧
    (s.contextCurrentlyRegistered = true →
      Event.unregisterContext s.contextId ∈
        (OnConnectStreamClosingTraced s).2.map Prod.fst) ∧
    Event.unregisterRegistrationVisitor ∈
      (OnConnectStreamClosingTraced s).2.map Prod.fst ∧
    (OnConnectStreamClosingTraced s).1.closeNotified = true ∧
    (s.closeNotified = false →
      Event.sessionClosed s.errorCode s.errorMessage ∈
        (OnConnectStreamClosingTraced s).2.map Prod.fst) := by
  refine ⟨?_, ?_, ?_, ?_, ?_, ?_, ?_, ?_⟩
  · simp only [OnConnectStreamClosingTraced, MaybeNotifyClose]
    split_ifs <;> rfl
  · simp only [OnConnectStreamClosingTraced, MaybeNotifyClose]
    split_ifs <;>
      simp [List.filterMap_append, List.filterMap_map, Function.comp_def, resetGoneId,
        List.filterMap_some]
  · exact fun p hp _ => closing_trace_states_empty s p hp
  · simp only [OnConnectStreamClosingTraced, MaybeNotifyClose]
    split_ifs with hreg hnotif <;> simp_all
  · intro hreg
    simp only [OnConnectStreamClosingTraced, MaybeNotifyClose, hreg]
    split_ifs <;> simp_all
  · simp only [OnConnectStreamClosingTraced, MaybeNotifyClose]
    split_ifs <;> simp_all
  · simp only [OnConnectStreamClosingTraced, MaybeNotifyClose]
    split_ifs <;> simp_all
  · intro hnotif
    simp only [OnConnectStreamClosingTraced, MaybeNotifyClose, hnotif]
    split_ifs <;> simp_all

/-- Witness for C7 at a concrete state with two associated streams and a
registered context: both ids are reset and the context is unregistered. -/
theorem C7_connect_stream_closing_witness :
    ((OnConnectStreamClosingTraced
        (⟨Perspective.IS_SERVER, 4, false, false, false, 0, "", [1, 2], true,
          some 3, true⟩ : SessionState)).2.map Prod.fst).filterMap resetGoneId = [1, 2] ∧
    Event.unregisterContext (some 3) ∈
      (OnConnectStreamClosingTraced
        (⟨Perspective.IS_SERVER, 4, false, false, false, 0, "", [1, 2], true,
          some 3, true⟩ : SessionState)).2.map Prod.fst := by
  have h := C7_connect_stream_closing
    (⟨Perspective.IS_SERVER, 4, false, false, false, 0, "", [1, 2], true,
      some 3, true⟩ : SessionState)
  exact ⟨h.2.1, h.2.2.2.2.1 (by decide)⟩

/-! ## Datagram context registration (C8, C10) -/

/-- Embedding of `OnContextReceived` (lines 280-327). -/
def OnContextReceived (stream_id : Nat) (context_id : Option Nat)
    (format_type : DatagramFormatType) (format_additional_data : String)
    (s : SessionState) : SessionState × List Event :=
  if stream_id ≠ s.connectStreamId then
    (s, [Event.quicBug "WT3 bad datagram context registration"])
  else if format_type ≠ DatagramFormatType.WEBTRANSPORT then
    (s, [])
  else if format_additional_data ≠ "" then
    (s, [Event.resetStream s.connectStreamId
      QuicRstStreamErrorCode.QUIC_BAD_APPLICATION_PAYLOAD])
  else
    let s :=
      if !s.contextIsKnown then
        { s with contextIsKnown := true, contextId := context_id }
      else s
    if context_id ≠ s.contextId then
      (s, [])
    else if s.role = Perspective.IS_SERVER then
      if s.contextCurrentlyRegistered then
        (s, [Event.resetStream s.connectStreamId
          QuicRstStreamErrorCode.QUIC_STREAM_CANCELLED])
      else
        ({ s with contextCurrentlyRegistered := true },
          [Event.registerContext s.contextId])
    else
      (s, [])

/-- Recogniser for `RegisterHttp3DatagramContextId` platform calls. -/
def Event.isRegisterContext : Event → Bool
  | Event.registerContext _ => true
  | _ => false

/-- Claim C8: on a server-role session with no context registered yet and a
compatible context id, a valid `OnContextReceived` (connect-stream id,
`WEBTRANSPORT` format, empty additional data) registers the context and
sets `context_currently_registered`; a second identical event then performs
no registration and resets the connect stream with `QUIC_STREAM_CANCELLED`,
leaving the flag set — so registration happens exactly once. -/
theorem C8_server_context_registration (s : SessionState) (ctx : Option Nat)
    (hrole : s.role = Perspective.IS_SERVER)
    (hreg : s.contextCurrentlyRegistered = false)
    (hctx : s.contextIsKnown = false ∨ s.contextId = ctx) :
    (OnContextReceived s.connectStreamId ctx DatagramFormatType.WEBTRANSPORT "" s).1.contextCurrentlyRegistered
        = true ∧
    Event.registerContext ctx ∈
      (OnContextReceived s.connectStreamId ctx DatagramFormatType.WEBTRANSPORT "" s).2 ∧
    ((OnContextReceived s.connectStreamId ctx DatagramFormatType.WEBTRANSPORT "" s).2.countP
        (fun e => Event.isResetStream e)) = 0 ∧
    (OnContextReceived s.connectStreamId ctx DatagramFormatType.WEBTRANSPORT ""
        (OnContextReceived s.connectStreamId ctx DatagramFormatType.WEBTRANSPORT "" s).1).1.contextCurrentlyRegistered
        = true ∧
    ((OnContextReceived s.connectStreamId ctx DatagramFormatType.WEBTRANSPORT ""
        (OnContextReceived s.connectStreamId ctx DatagramFormatType.WEBTRANSPORT "" s).1).2.countP
        (fun e => Event.isRegisterContext e)) = 0 ∧
    Event.resetStream s.connectStreamId QuicRstStreamErrorCode.QUIC_STREAM_CANCELLED ∈
      (OnContextReceived s.connectStreamId ctx DatagramFormatType.WEBTRANSPORT ""
        (OnContextReceived s.connectStreamId ctx DatagramFormatType.WEBTRANSPORT "" s).1).2 := by
  rcases hctx with hunknown | hmatch
  · simp [OnContextReceived, hrole, hreg, hunknown, Event.isResetStream,
      Event.isRegisterContext]
  · by_cases hknown : s.contextIsKnown = true
    · simp [OnContextReceived, hrole, hreg, hknown, hmatch, Event.isResetStream,
        Event.isRegisterContext]
    · simp [OnContextReceived, hrole, hreg,
        (by simp_all : s.contextIsKnown = false), Event.isResetStream,
        Event.isRegisterContext]

/-- Witness for C8 at a concrete fresh server session (spec scenario S5)
with context id `4`. -/
theorem C8_server_context_registration_witness :
    (OnContextReceived 0 (some 4) DatagramFormatType.WEBTRANSPORT ""
        (⟨Perspective.IS_SERVER, 0, false, false, false, 0, "", [], false, none,
          false⟩ : SessionState)).1.contextCurrentlyRegistered = true ∧
    Event.resetStream 0 QuicRstStreamErrorCode.QUIC_STREAM_CANCELLED ∈
      (OnContextReceived 0 (some 4) DatagramFormatType.WEBTRANSPORT ""
        (OnContextReceived 0 (some 4) DatagramFormatType.WEBTRANSPORT ""
          (⟨Perspective.IS_SERVER, 0, false, false, false, 0, "", [], false, none,
            false⟩ : SessionState)).1).2 := by
  have h := C8_server_context_registration
    (⟨Perspective.IS_SERVER, 0, false, false, false, 0, "", [], false, none,
      false⟩ : SessionState) (some 4) (by decide) (by decide) (Or.inl (by decide))
  exact ⟨h.1, h.2.2.2.2.2⟩

/-- One `OnContextReceived` call on a client session with
`context_is_known` set neither adopts a context, nor changes the known
flag, nor registers anything. -/
lemma client_context_step (s : SessionState) (sid : Nat) (ctx : Option Nat)
    (fmt : DatagramFormatType) (dat : String)
    (hrole : s.role = Perspective.IS_CLIENT)
    (hknown : s.contextIsKnown = true) :
    (OnContextReceived sid ctx fmt dat s).1.role = Perspective.IS_CLIENT ∧
    (OnContextReceived sid ctx fmt dat s).1.contextIsKnown = true ∧
    (OnContextReceived sid ctx fmt dat s).1.contextId = s.contextId ∧
    (OnContextReceived sid ctx fmt dat s).1.contextCurrentlyRegistered =
      s.contextCurrentlyRegistered ∧
    ((OnContextReceived sid ctx fmt dat s).2.countP
      (fun e => Event.isRegisterContext e)) = 0 := by
  unfold OnContextReceived
  split_ifs <;> simp_all [Event.isRegisterContext]

/-- Fold a list of `OnContextReceived` inputs over a session state,
accumulating emitted events. -/
def runContextReceived (s : SessionState) :
    List (Nat × Option Nat × DatagramFormatType × String) → SessionState × List Event
  | [] => (s, [])
  | (sid, ctx, fmt, dat) :: rest =>
    let step := OnContextReceived sid ctx fmt dat s
    let tail := runContextReceived step.1 rest
    (tail.1, step.2 ++ tail.2)

/-- Claim C10: immediately after constructing a client session,
`context_is_known` and `context_currently_registered` are both true
regardless of the `attempt_to_use_datagram_contexts` flag, and with the
flag false `context_id` stays empty; consequently, across any sequence of
`OnContextReceived` events the client never adopts a context
(`context_is_known` never leaves true and `context_id` never changes) and
never performs a local registration. -/
theorem C10_client_context_fixed (csid : Nat) (attempt : Bool) (nctx : Nat)
    (inputs : List (Nat × Option Nat × DatagramFormatType × String)) :
    (WebTransportHttp3Construct Perspective.IS_CLIENT csid attempt nctx).1.contextIsKnown
        = true ∧
    (WebTransportHttp3Construct Perspective.IS_CLIENT csid attempt
        nctx).1.contextCurrentlyRegistered = true ∧
    (attempt = false →
      (WebTransportHttp3Construct Perspective.IS_CLIENT csid attempt nctx).1.contextId
        = none) ∧
    (runContextReceived
        (WebTransportHttp3Construct Perspective.IS_CLIENT csid attempt nctx).1
        inputs).1.contextIsKnown = true ∧
    (runContextReceived
        (WebTransportHttp3Construct Perspective.IS_CLIENT csid attempt nctx).1
        inputs).1.contextId =
      (WebTransportHttp3Construct Perspective.IS_CLIENT csid attempt nctx).1.contextId ∧
    ((runContextReceived
        (WebTransportHttp3Construct Perspective.IS_CLIENT csid attempt nctx).1
        inputs).2.countP (fun e => Event.isRegisterContext e)) = 0 := by
  have hinv : ∀ (l : List (Nat × Option Nat × DatagramFormatType × String))
      (s : SessionState), s.role = Perspective.IS_CLIENT → s.contextIsKnown = true →
      (runContextReceived s l).1.contextIsKnown = true ∧
      (runContextReceived s l).1.contextId = s.contextId ∧
      ((runContextReceived s l).2.countP (fun e => Event.isRegisterContext e)) = 0 := by
    intro l
    induction l with
    | nil =>
        intro s _ hknown
        simp [runContextReceived, hknown]
    | cons input rest ih =>
        intro s hrole hknown
        obtain ⟨sid, ctx, fmt, dat⟩ := input
        have hstep := client_context_step s sid ctx fmt dat hrole hknown
        have htail := ih (OnContextReceived sid ctx fmt dat s).1 hstep.1 hstep.2.1
        simp only [runContextReceived, List.countP_append]
        refine ⟨htail.1, ?_, ?_⟩
        · rw [htail.2.1, hstep.2.2.1]
        · rw [htail.2.2, hstep.2.2.2.2]
  have hstart : (WebTransportHttp3Construct Perspective.IS_CLIENT csid attempt
      nctx).1.role = Perspective.IS_CLIENT ∧
      (WebTransportHttp3Construct Perspective.IS_CLIENT csid attempt nctx).1.contextIsKnown
        = true ∧
      (WebTransportHttp3Construct Perspective.IS_CLIENT csid attempt
        nctx).1.contextCurrentlyRegistered = true := by
    cases attempt <;> simp [WebTransportHttp3Construct, defaultSessionState]
  have hrun := hinv inputs _ hstart.1 hstart.2.1
  refine ⟨hstart.2.1, hstart.2.2, ?_, hrun.1, hrun.2.1, hrun.2.2⟩
  intro hatt
  subst hatt
  simp [WebTransportHttp3Construct, defaultSessionState]

/-- Witness for C10 at concrete inputs: flag false, one stray context
message; the context stays empty and no registration happens. -/
theorem C10_client_context_fixed_witness :
    (WebTransportHttp3Construct Perspective.IS_CLIENT 0 false 0).1.contextId = none ∧
    ((runContextReceived (WebTransportHttp3Construct Perspective.IS_CLIENT 0 false 0).1
        [(0, some 7, DatagramFormatType.WEBTRANSPORT, "")]).2.countP
        (fun e => Event.isRegisterContext e)) = 0 := by
  have h := C10_client_context_fixed 0 false 0
    [(0, some 7, DatagramFormatType.WEBTRANSPORT, "")]
  exact ⟨h.2.2.1 rfl, h.2.2.2.2.2⟩


/-! ## Unidirectional stream preamble parsing (C6) -/

/-- Modelled from the spec: QUIC's varint62 length prefix
(glossary, and `QuicDataReader::PeekVarInt62Length`, which is not among the
sources): the top two bits of the first byte give the total encoded length
`2^(b >> 6)`, i.e. 1, 2, 4 or 8 bytes. -/
def varIntLength (firstByte : Nat) : Nat := 2 ^ (firstByte / 64)

/-- Modelled from the spec: reading a varint62 from a byte sequence, as
`QuicDataReader::ReadVarInt62` does (not among the sources); fails when
fewer bytes are available than the first byte's length prefix requires,
and otherwise yields the remaining 6 bits of the first byte followed by
the further bytes, big-endian. -/
def readVarInt62 : List Nat → Option Nat
  | [] => none
  | b :: rest =>
    let len := varIntLength b
    if rest.length + 1 < len then none
    else
      some (((b % 64) :: rest.take (len - 1)).foldl
        (fun acc byte => acc * 256 + byte) 0)

/-- Modelled from the spec: the stream-sequencer state `ReadSessionId`
consults (§6 platform contract: readable-region peek, consumed and buffered
byte counts, close offset; the sequencer is not among the sources).
`buffered` is the contiguous readable region starting at offset `consumed`;
`closeOffset` is the total stream length once a FIN has been received. -/
structure UniStreamState where
  sessionId : Option Nat
  consumed : Nat
  buffered : List Nat
  closeOffset : Option Nat
deriving DecidableEq, Repr

/-- Observable calls the unidirectional stream makes. -/
inductive UniEvent where
  | associateWithSession (sessionId streamId : Nat)
  | adapterOnDataAvailable
  | warning
deriving DecidableEq, Repr

/-- Whether all stream data has been received
(`NumBytesConsumed() + NumBytesBuffered() >= close_offset()`); without a
FIN the close offset is unlimited and this is false. -/
def finFullyReceived (s : UniStreamState) : Bool :=
  match s.closeOffset with
  | some off => decide (s.consumed + s.buffered.length ≥ off)
  | none => false

/-- Embedding of `WebTransportHttp3UnidirectionalStream::ReadSessionId`
(lines 402-427). -/
def ReadSessionId (streamId : Nat) (s : UniStreamState) :
    Bool × UniStreamState × List UniEvent :=
  match s.buffered with
  | [] => (false, s, [])
  | b :: rest =>
    let session_id_length := varIntLength b
    match readVarInt62 (b :: rest) with
    | none =>
      if finFullyReceived s then
        (false,
          { s with consumed := s.consumed + (b :: rest).length, buffered := [] },
          [UniEvent.warning])
      else
        (false, s, [])
    | some session_id =>
      (true,
        { s with
          consumed := s.consumed + session_id_length
          buffered := (b :: rest).drop session_id_length
          sessionId := some session_id },
        [UniEvent.associateWithSession session_id streamId])

/-- Embedding of `WebTransportHttp3UnidirectionalStream::OnDataAvailable`
(lines 429-437). -/
def UniOnDataAvailable (streamId : Nat) (s : UniStreamState) :
    UniStreamState × List UniEvent :=
  if s.sessionId.isSome then
    (s, [UniEvent.adapterOnDataAvailable])
  else
    let r := ReadSessionId streamId s
    if r.1 then (r.2.1, r.2.2 ++ [UniEvent.adapterOnDataAvailable])
    else (r.2.1, r.2.2)

/-- Claim C6: on a data-available event of a receive-side unidirectional
stream whose session id is not yet bound, exactly one of three outcomes
occurs.  (1) The readable prefix holds a fully-readable varint62: exactly
its encoded length is consumed, the session id is bound to the parsed
value, the stream is associated with that session, and the remaining
buffered bytes are handed to the application data path.  (2) The varint62
is incomplete and the FIN offset has not been fully received: nothing is
consumed, bound or associated.  (3) The varint62 is incomplete but all
data up to the FIN offset has been received: every buffered byte is
consumed and no association is ever made. -/
theorem C6_preamble_three_outcomes (streamId : Nat) (s : UniStreamState)
    (hnone : s.sessionId = none) :
    (∀ v, readVarInt62 s.buffered = some v →
      (UniOnDataAvailable streamId s).1.sessionId = some v ∧
      (UniOnDataAvailable streamId s).1.consumed =
        s.consumed + varIntLength (s.buffered.headD 0) ∧
      (UniOnDataAvailable streamId s).1.buffered =
        s.buffered.drop (varIntLength (s.buffered.headD 0)) ∧
      UniEvent.associateWithSession v streamId ∈ (UniOnDataAvailable streamId s).2 ∧
      UniEvent.adapterOnDataAvailable ∈ (UniOnDataAvailable streamId s).2) ∧
    (readVarInt62 s.buffered = none → finFullyReceived s = false →
      (UniOnDataAvailable streamId s).1 = s ∧
      (UniOnDataAvailable streamId s).2 = []) ∧
    (readVarInt62 s.buffered = none → finFullyReceived s = true →
      (UniOnDataAvailable streamId s).1.sessionId = none ∧
      (UniOnDataAvailable streamId s).1.buffered = [] ∧
      (UniOnDataAvailable streamId s).1.consumed = s.consumed + s.buffered.length ∧
      (∀ v sid, UniEvent.associateWithSession v sid ∉ (UniOnDataAvailable streamId s).2) ∧
      UniEvent.adapterOnDataAvailable ∉ (UniOnDataAvailable streamId s).2) := by
  obtain ⟨sid0, con0, buf0, off0⟩ := s
  simp only at hnone
  subst hnone
  cases buf0 with
  | nil =>
      refine ⟨?_, ?_, ?_⟩
      · intro v hv
        simp [readVarInt62] at hv
      · intro _ _
        simp [UniOnDataAvailable, ReadSessionId]
      · intro _ _
        simp [UniOnDataAvailable, ReadSessionId]
  | cons b rest =>
      cases hread : readVarInt62 (b :: rest) with
      | none =>
          refine ⟨?_, ?_, ?_⟩
          · intro v hv
            simp [hread] at hv
          · intro _ hfin
            simp [UniOnDataAvailable, ReadSessionId, hread, hfin]
          · intro _ hfin
            simp [UniOnDataAvailable, ReadSessionId, hread, hfin]
      | some v0 =>
          refine ⟨?_, ?_, ?_⟩
          · intro v hv
            simp [hread] at hv
            subst hv
            simp [UniOnDataAvailable, ReadSessionId, hread]
          · intro hv _
            simp [hread] at hv
          · intro hv _
            simp [hread] at hv

/-- Witness for C6 at concrete inputs: with buffered bytes `[0x40, 0x05]`
the two-byte varint62 parses to session id `5`, everything is consumed and
the stream is associated; with the incomplete `[0x40]` and a FIN at offset
1, the byte is discarded and no association happens. -/
theorem C6_preamble_three_outcomes_witness :
    (UniOnDataAvailable 11 (⟨none, 0, [0x40, 0x05], none⟩ : UniStreamState)).1.sessionId
        = some 5 ∧
    UniEvent.associateWithSession 5 11 ∈
      (UniOnDataAvailable 11 (⟨none, 0, [0x40, 0x05], none⟩ : UniStreamState)).2 ∧
    (UniOnDataAvailable 11 (⟨none, 0, [0x40], some 1⟩ : UniStreamState)).1.buffered = [] ∧
    (∀ v sid, UniEvent.associateWithSession v sid ∉
      (UniOnDataAvailable 11 (⟨none, 0, [0x40], some 1⟩ : UniStreamState)).2) := by
  have h1 := C6_preamble_three_outcomes 11
    (⟨none, 0, [0x40, 0x05], none⟩ : UniStreamState) rfl
  have h2 := C6_preamble_three_outcomes 11
    (⟨none, 0, [0x40], some 1⟩ : UniStreamState) rfl
  have ha := h1.1 5 (by decide)
  have hb := h2.2.2 (by decide) (by decide)
  exact ⟨ha.1, ha.2.2.2.1, hb.2.1, hb.2.2.2.1⟩

end WT3
